import Mathlib

/-!
Shallow embedding of the AC200 MFD core driver (drivers/mfd/ac200.c) and the
AC200 EPHY control driver (drivers/phy/allwinner/ac200-ephy-ctl.c).

Register values are 16-bit; machine arithmetic is modelled on `Nat` with an
explicit `% 2^16` truncation where the hardware register is written.  Error
codes are modelled as positive naturals (the kernel returns their negations):
`EIO_ERR = 5`, `EINVAL = 22`, `EPROBE_DEFER = 517`.

The regmap collaborator is embedded at the granularity the drivers use it:
`regmap_write`, `regmap_read`, `regmap_update_bits` (read, merge bits, write
only when the merged value differs — the kernel's change-detection behaviour),
and `regmap_set_bits` / `regmap_clear_bits` / `regmap_test_bits` derived from
it, over an explicit state that carries the register file, a fault schedule
for injected bus errors (one entry per bus access; a faulted access leaves the
register file unchanged and returns `EIO_ERR`), and a trace of events.
-/

/-- 16-bit truncation applied to every value stored into a hardware register. -/
def u16 (x : Nat) : Nat := x % 65536

/-- Error code EIO_ERR (bus transfer failure), sign dropped. -/
def EIO_ERR : Nat := 5

/-- Error code EINVAL (invalid argument / configuration), sign dropped. -/
def EINVAL : Nat := 22

/-- Error code EPROBE_DEFER, sign dropped. -/
def EPROBE_DEFER : Nat := 517

/-! ### Register constants from drivers/mfd/ac200.c -/

def AC200_SYS_CONTROL : Nat := 0x0002
def AC200_SYS_BG_CTL : Nat := 0x0050
def AC200_TWI_REG_ADDR_H : Nat := 0xFE
def AC200_MAX_REG : Nat := 0xA1F2

/-! ### Register constants from drivers/phy/allwinner/ac200-ephy-ctl.c -/

def AC200_SYS_EPHY_CTL0 : Nat := 0x0014
/-- BIT(0) of the system ephy control 0 register. -/
def AC200_EPHY_RESET_INVALID : Nat := 1
/-- Bit index (not mask) of the clock gate in the same register. -/
def AC200_EPHY_SYSCLK_GATING : Nat := 1
def AC200_SYS_EPHY_CTL1 : Nat := 0x0016
def AC200_EPHY_E_EPHY_MII_IO_EN : Nat := 1
def AC200_EPHY_E_LNK_LED_IO_EN : Nat := 2
def AC200_EPHY_E_SPD_LED_IO_EN : Nat := 4
def AC200_EPHY_E_DPX_LED_IO_EN : Nat := 8
def AC200_EPHY_CTL : Nat := 0x6000
def AC200_EPHY_SHUTDOWN : Nat := 1
def AC200_EPHY_LED_POL : Nat := 2
def AC200_EPHY_CLK_SEL : Nat := 4
/-- Macro `AC200_EPHY_ADDR(x) = ((x) & 0x1F) << 4`. -/
def AC200_EPHY_ADDR (x : Nat) : Nat := (x &&& 0x1F) <<< 4
/-- BIT(11). -/
def AC200_EPHY_XMII_SEL : Nat := 2048
/-- Macro `AC200_EPHY_CALIB(x) = ((x) & 0xF) << 12`. -/
def AC200_EPHY_CALIB (x : Nat) : Nat := (x &&& 0xF) <<< 12

/-- Constant `GPIO_ACTIVE_LOW` from dt-bindings/gpio/gpio.h. -/
def GPIO_ACTIVE_LOW : Nat := 1

/-! ### Paged register transport (regmap_range_cfg of ac200.c) -/

structure RegmapRangeCfg where
  range_max : Nat
  selector_reg : Nat
  selector_mask : Nat
  selector_shift : Nat
  window_start : Nat
  window_len : Nat

/-- The single entry of `ac200_range_cfg[]` in ac200.c. -/
def ac200_range_cfg : RegmapRangeCfg :=
  { range_max := AC200_MAX_REG
    selector_reg := AC200_TWI_REG_ADDR_H
    selector_mask := 0xff
    selector_shift := 0
    window_start := 0
    window_len := 256 }

/-- The page a logical address falls in, per the regmap windowing of the
configured range: `(addr - window_start) / window_len`. -/
def pageOf (cfg : RegmapRangeCfg) (a : Nat) : Nat :=
  (a - cfg.window_start) / cfg.window_len

/-- The in-window offset of a logical address:
`window_start + (addr - window_start) % window_len`. -/
def offsetOf (cfg : RegmapRangeCfg) (a : Nat) : Nat :=
  cfg.window_start + (a - cfg.window_start) % cfg.window_len

/-! ### Event traces and the regmap state -/

/-- Observable events: bus accesses issued through the regmap, clock
enable/disable, the settle delay, and child-device registration. -/
inductive Event where
  | read (addr : Nat)
  | write (addr : Nat) (val : Nat)
  | clkEnable
  | clkDisable
  | sleep (ms : Nat)
  | addChildren
deriving DecidableEq, Repr

/-- State threaded through the drivers: the 16-bit register file, the injected
fault schedule (head entry governs the next bus access; an exhausted schedule
means no fault), whether the reference clock is enabled, and the event trace
(every attempted bus access is logged, also a faulted one). -/
structure ChipState where
  regs : Nat → Nat
  faults : List Bool
  clkOn : Bool
  trace : List Event

/-- Pop the fault flag for the next bus access. -/
def takeFault (s : ChipState) : Bool × ChipState :=
  match s.faults with
  | [] => (false, s)
  | f :: fs => (f, { s with faults := fs })

/-- Kernel `regmap_write`: one bus access; on success the register takes the 16-bit
truncated value, on a fault the register file is unchanged and EIO_ERR returns. -/
def regmap_write (s : ChipState) (addr val : Nat) : Except Nat Unit × ChipState :=
  let p := takeFault s
  let s1 := { p.2 with trace := p.2.trace ++ [Event.write addr val] }
  if p.1 then (Except.error EIO_ERR, s1)
  else (Except.ok (), { s1 with regs := fun a => if a = addr then u16 val else s1.regs a })

/-- Kernel `regmap_read`: one bus access returning the register value or EIO_ERR. -/
def regmap_read (s : ChipState) (addr : Nat) : Except Nat Nat × ChipState :=
  let p := takeFault s
  let s1 := { p.2 with trace := p.2.trace ++ [Event.read addr] }
  if p.1 then (Except.error EIO_ERR, s1)
  else (Except.ok (s1.regs addr), s1)

/-- Kernel `regmap_update_bits(map, reg, mask, val)`: read, merge
`(orig & ~mask) | (val & mask)` (complement within the 16-bit register width),
and write back only when the merged value differs from the original. -/
def regmap_update_bits (s : ChipState) (addr mask val : Nat) :
    Except Nat Unit × ChipState :=
  match regmap_read s addr with
  | (Except.error e, s1) => (Except.error e, s1)
  | (Except.ok orig, s1) =>
    let tmp := (orig &&& (0xFFFF ^^^ (mask &&& 0xFFFF))) ||| (val &&& mask)
    if tmp = orig then (Except.ok (), s1)
    else regmap_write s1 addr tmp

/-- Kernel `regmap_set_bits(map, reg, bits)`. -/
def regmap_set_bits (s : ChipState) (addr bits : Nat) : Except Nat Unit × ChipState :=
  regmap_update_bits s addr bits bits

/-- Kernel `regmap_clear_bits(map, reg, bits)`. -/
def regmap_clear_bits (s : ChipState) (addr bits : Nat) : Except Nat Unit × ChipState :=
  regmap_update_bits s addr bits 0

/-- Kernel `regmap_test_bits(map, reg, bits)`: 1 when all of `bits` are set, 0 when
not, or the read error. -/
def regmap_test_bits (s : ChipState) (addr bits : Nat) : Except Nat Nat × ChipState :=
  match regmap_read s addr with
  | (Except.error e, s1) => (Except.error e, s1)
  | (Except.ok v, s1) =>
    (Except.ok (if v &&& bits = bits then 1 else 0), s1)

/-- Number of bus writes to `addr` recorded in a trace. -/
def writeCount (tr : List Event) (addr : Nat) : Nat :=
  (tr.filter fun op =>
    match op with
    | Event.write a _ => a == addr
    | _ => false).length

/-! ### EPHY reset-controller operations (ac200-ephy-ctl.c lines 64-102) -/

/-- Function `ephy_ctl_assert`: clear the reset-valid bit of system ephy control 0. -/
def ephy_ctl_assert (s : ChipState) : Except Nat Unit × ChipState :=
  regmap_clear_bits s AC200_SYS_EPHY_CTL0 AC200_EPHY_RESET_INVALID

/-- Function `ephy_ctl_deassert`: set the reset-valid bit of system ephy control 0. -/
def ephy_ctl_deassert (s : ChipState) : Except Nat Unit × ChipState :=
  regmap_set_bits s AC200_SYS_EPHY_CTL0 AC200_EPHY_RESET_INVALID

/-- Function `ephy_ctl_reset` (pulse): clear the reset-valid bit, and only when that
succeeded, set it again; a failure of the first step returns immediately. -/
def ephy_ctl_reset (s : ChipState) : Except Nat Unit × ChipState :=
  match regmap_clear_bits s AC200_SYS_EPHY_CTL0 AC200_EPHY_RESET_INVALID with
  | (Except.error e, s1) => (Except.error e, s1)
  | (Except.ok _, s1) =>
    regmap_set_bits s1 AC200_SYS_EPHY_CTL0 AC200_EPHY_RESET_INVALID

/-- Function `ephy_ctl_status`: test the reset-valid bit. -/
def ephy_ctl_status (s : ChipState) : Except Nat Nat × ChipState :=
  regmap_test_bits s AC200_SYS_EPHY_CTL0 AC200_EPHY_RESET_INVALID

/-- Modelled from the spec: the gated clock registered by the probe via
`devm_clk_hw_register_regmap_gate` (helper not part of this tree) toggles the
single gate bit `AC200_EPHY_SYSCLK_GATING` of `AC200_SYS_EPHY_CTL0` with a
read-modify-write, preserving the other bits; enable sets the bit. -/
def gate_clk_enable (s : ChipState) : Except Nat Unit × ChipState :=
  regmap_set_bits s AC200_SYS_EPHY_CTL0 (1 <<< AC200_EPHY_SYSCLK_GATING)

/-- Modelled from the spec: gate disable clears the gate bit with a
read-modify-write, preserving the other bits. -/
def gate_clk_disable (s : ChipState) : Except Nat Unit × ChipState :=
  regmap_clear_bits s AC200_SYS_EPHY_CTL0 (1 <<< AC200_EPHY_SYSCLK_GATING)

/-- Function `ac200_ephy_ctl_disable` (lines 120-125): write the shutdown bit to the
ephy control register, 0 to system ephy control 1, 0 to system ephy control 0;
the C ignores the three return values. -/
def ac200_ephy_ctl_disable (s : ChipState) : ChipState :=
  let s1 := (regmap_write s AC200_EPHY_CTL AC200_EPHY_SHUTDOWN).2
  let s2 := (regmap_write s1 AC200_SYS_EPHY_CTL1 0).2
  (regmap_write s2 AC200_SYS_EPHY_CTL0 0).2

/-! ### EPHY probe (ac200-ephy-ctl.c lines 127-272) -/

/-- PHY interface mode as read from the device tree; `other` covers every
`phy_interface_t` value which is neither MII nor RMII. -/
inductive PhyMode where
  | mii
  | rmii
  | other (n : Nat)
deriving DecidableEq, Repr

/-- Results of the probe's collaborator calls, fixed per probe run: devm
resource acquisition, nvmem calibration cell and its contents (decoded u16
value and blob byte length), device-tree properties, the parent clock, and
the three registration steps at the end of the probe. -/
structure ProbeEnv where
  regmapPresent : Bool
  calCell : Except Nat Unit
  calRead : Except Nat (Nat × Nat)
  phyMode : Except Nat PhyMode
  ledPolarity : Except Nat Nat
  phyAddress : Except Nat Nat
  clkGet : Except Nat Unit
  clkRate : Nat
  resetRegister : Except Nat Unit
  gateClkRegister : Except Nat Unit
  clkProviderAdd : Except Nat Unit

/-- The configuration phase of `ac200_ephy_ctl_probe` (lines 141-215): no bus
access happens here; it either fails with the first error the C code returns,
or yields the computed 16-bit ephy control value. -/
def ac200_ephy_ctl_compute (env : ProbeEnv) : Except Nat Nat :=
  if env.regmapPresent = false then Except.error EPROBE_DEFER else
  match env.calCell with
  | Except.error e => Except.error e
  | Except.ok _ =>
  match env.calRead with
  | Except.error e => Except.error e
  | Except.ok (calval, callen) =>
  if callen ≠ 2 then Except.error EINVAL else
  match env.phyMode with
  | Except.error e => Except.error e
  | Except.ok m =>
  match (match m with
         | PhyMode.mii => Except.ok (AC200_EPHY_CALIB (calval + 3))
         | PhyMode.rmii =>
           Except.ok (AC200_EPHY_CALIB (calval + 3) ||| AC200_EPHY_XMII_SEL)
         | PhyMode.other _ => Except.error EINVAL) with
  | Except.error e => Except.error e
  | Except.ok v1 =>
  match env.ledPolarity with
  | Except.error e => Except.error e
  | Except.ok pol =>
  let v2 := if pol = GPIO_ACTIVE_LOW then v1 ||| AC200_EPHY_LED_POL else v1
  match env.phyAddress with
  | Except.error e => Except.error e
  | Except.ok a =>
  let v3 := v2 ||| AC200_EPHY_ADDR a
  match env.clkGet with
  | Except.error e => Except.error e
  | Except.ok _ =>
  Except.ok (if env.clkRate = 24000000 then v3 ||| AC200_EPHY_CLK_SEL else v3)

/-- Function `ac200_ephy_ctl_probe`: the configuration phase followed by the register
sequence of lines 217-271.  A failed write of the computed ephy control value
returns directly (line 232), while failures of the reset-controller, gate
clock and clock-provider registrations go through `ac200_ephy_ctl_disable`
(label err_disable_ephy). -/
def ac200_ephy_ctl_probe (env : ProbeEnv) (s : ChipState) :
    Except Nat Unit × ChipState :=
  match ac200_ephy_ctl_compute env with
  | Except.error e => (Except.error e, s)
  | Except.ok ephyCtlVal =>
  match regmap_write s AC200_SYS_EPHY_CTL0 0 with
  | (Except.error e, s1) => (Except.error e, s1)
  | (Except.ok _, s1) =>
  match regmap_write s1 AC200_SYS_EPHY_CTL1
      (AC200_EPHY_E_EPHY_MII_IO_EN ||| AC200_EPHY_E_LNK_LED_IO_EN |||
       AC200_EPHY_E_SPD_LED_IO_EN ||| AC200_EPHY_E_DPX_LED_IO_EN) with
  | (Except.error e, s2) => (Except.error e, s2)
  | (Except.ok _, s2) =>
  match regmap_write s2 AC200_EPHY_CTL ephyCtlVal with
  | (Except.error e, s3) => (Except.error e, s3)
  | (Except.ok _, s3) =>
  match env.resetRegister with
  | Except.error e => (Except.error e, ac200_ephy_ctl_disable s3)
  | Except.ok _ =>
  match env.gateClkRegister with
  | Except.error e => (Except.error e, ac200_ephy_ctl_disable s3)
  | Except.ok _ =>
  match env.clkProviderAdd with
  | Except.error e => (Except.error e, ac200_ephy_ctl_disable s3)
  | Except.ok _ => (Except.ok (), s3)

/-! ### MFD core driver (ac200.c) -/

/-- Results of the MFD probe's collaborator calls. -/
structure MfdEnv where
  clkGet : Except Nat Unit
  regmapInit : Except Nat Unit
  bgCell : Except Nat Unit
  bgRead : Except Nat (Nat × Nat)
  clkEnable : Except Nat Unit
  mfdAdd : Except Nat Unit

/-- Call `clk_disable_unprepare` on the reference clock. -/
def clk_disable_unprepare (s : ChipState) : ChipState :=
  { s with clkOn := false, trace := s.trace ++ [Event.clkDisable] }

/-- Function `ac200_i2c_probe` (lines 69-155): resource acquisition, bandgap blob read
and length check, clock enable, the 40 ms settle delay, write 0 then 1 to the
system control register, the conditional bandgap write, and child-device
registration; any failure after the clock was enabled disables the clock
(label err) before the error returns. -/
def ac200_i2c_probe (env : MfdEnv) (s : ChipState) : Except Nat Unit × ChipState :=
  match env.clkGet with
  | Except.error e => (Except.error e, s)
  | Except.ok _ =>
  match env.regmapInit with
  | Except.error e => (Except.error e, s)
  | Except.ok _ =>
  match env.bgCell with
  | Except.error e => (Except.error e, s)
  | Except.ok _ =>
  match env.bgRead with
  | Except.error e => (Except.error e, s)
  | Except.ok (bgraw, bglen) =>
  if bglen ≠ 2 then (Except.error EINVAL, s) else
  let bgval := u16 bgraw
  match env.clkEnable with
  | Except.error e => (Except.error e, s)
  | Except.ok _ =>
  let sOn := { s with clkOn := true
                      trace := s.trace ++ [Event.clkEnable, Event.sleep 40] }
  match regmap_write sOn AC200_SYS_CONTROL 0 with
  | (Except.error e, s1) => (Except.error e, clk_disable_unprepare s1)
  | (Except.ok _, s1) =>
  match regmap_write s1 AC200_SYS_CONTROL 1 with
  | (Except.error e, s2) => (Except.error e, clk_disable_unprepare s2)
  | (Except.ok _, s2) =>
  match (if bgval ≠ 0 then regmap_write s2 AC200_SYS_BG_CTL (0x8280 ||| bgval)
         else (Except.ok (), s2)) with
  | (Except.error e, s3) => (Except.error e, clk_disable_unprepare s3)
  | (Except.ok _, s3) =>
  match env.mfdAdd with
  | Except.error e => (Except.error e, clk_disable_unprepare s3)
  | Except.ok _ => (Except.ok (), { s3 with trace := s3.trace ++ [Event.addChildren] })

/-- Function `ac200_i2c_remove` (lines 157-164): write 0 to the system control
register, then disable the reference clock. -/
def ac200_i2c_remove (s : ChipState) : ChipState :=
  clk_disable_unprepare (regmap_write s AC200_SYS_CONTROL 0).2

/-! ### Concrete fixtures used by witnesses and counterexamples -/

/-- All-zero register file, no injected faults, clock off, empty trace. -/
def initState : ChipState :=
  { regs := fun _ => 0, faults := [], clkOn := false, trace := [] }

/-- Probe environment of the reference configuration: RMII, active-low LED
polarity, PHY bus address 0x05, calibration trim 0x0A (2-byte blob), 24 MHz
reference clock, and every collaborator call succeeding. -/
def envRmii : ProbeEnv :=
  { regmapPresent := true
    calCell := Except.ok ()
    calRead := Except.ok (0x0A, 2)
    phyMode := Except.ok PhyMode.rmii
    ledPolarity := Except.ok GPIO_ACTIVE_LOW
    phyAddress := Except.ok 5
    clkGet := Except.ok ()
    clkRate := 24000000
    resetRegister := Except.ok ()
    gateClkRegister := Except.ok ()
    clkProviderAdd := Except.ok () }

/-- State whose reset-valid bit is set (line deasserted) and whose next bus
access is scheduled to fault. -/
def stDeassertedFault : ChipState :=
  { regs := fun a => if a = AC200_SYS_EPHY_CTL0 then 1 else 0
    faults := [true], clkOn := false, trace := [] }

/-- MFD probe environment whose bandgap calibration value has a non-zero high
byte (0x0100) and every collaborator call succeeding. -/
def menvHighByte : MfdEnv :=
  { clkGet := Except.ok (), regmapInit := Except.ok (), bgCell := Except.ok ()
    bgRead := Except.ok (0x0100, 2), clkEnable := Except.ok ()
    mfdAdd := Except.ok () }

/-! ### Helper lemmas about the regmap model -/

/-- A bitwise or with 1 has bit 0 set. -/
theorem or_one_and_one (y : Nat) : (y ||| 1) &&& 1 = 1 := by
  rw [Nat.and_one_is_mod, Nat.mod_two_eq_one_iff_testBit_zero]
  simp

/-- Truncation to 16 bits does not change bit 0 extraction. -/
theorem u16_and_one (y : Nat) : u16 y &&& 1 = y &&& 1 := by
  simp [u16, Nat.and_one_is_mod,
        Nat.mod_mod_of_dvd y (by norm_num : (2:Nat) ∣ 65536)]

/-- Truncation to 16 bits preserves bits below 16. -/
theorem u16_testBit (y j : Nat) (hj : j < 16) : (u16 y).testBit j = y.testBit j := by
  unfold u16
  rw [show (65536 : Nat) = 2 ^ 16 by norm_num, Nat.testBit_mod_two_pow]
  simp [hj]

/-- Bits of the 16-bit all-ones mask. -/
theorem testBit_allones (j : Nat) : (65535 : Nat).testBit j = decide (j < 16) := by
  rw [show (65535 : Nat) = 2 ^ 16 - 1 by norm_num, Nat.testBit_two_pow_sub_one]

/-- The merged value of `regmap_update_bits` agrees with the original on every
bit below 16 outside the mask. -/
theorem merge_testBit (orig mask val j : Nat) (hj : j < 16)
    (hm : mask.testBit j = false) :
    ((orig &&& (65535 ^^^ (mask &&& 65535))) ||| (val &&& mask)).testBit j
      = orig.testBit j := by
  simp only [Nat.testBit_or, Nat.testBit_and, Nat.testBit_xor, testBit_allones, hm]
  simp [hj]

/-- Reduction of `regmap_read` under an exhausted fault schedule. -/
theorem regmap_read_nil (s : ChipState) (addr : Nat) (hf : s.faults = []) :
    regmap_read s addr = (Except.ok (s.regs addr),
      { s with trace := s.trace ++ [Event.read addr] }) := by
  simp [regmap_read, takeFault, hf]

/-- Reduction of `regmap_read` when a fault flag is scheduled: the access is
logged either way, the register file is untouched either way. -/
theorem regmap_read_cons (s : ChipState) (addr : Nat) (f : Bool) (rest : List Bool)
    (hf : s.faults = f :: rest) :
    regmap_read s addr = ((if f then Except.error EIO_ERR else Except.ok (s.regs addr)),
      { s with faults := rest, trace := s.trace ++ [Event.read addr] }) := by
  rcases f <;> simp [regmap_read, takeFault, hf]

/-- Reduction of `regmap_write` under an exhausted fault schedule. -/
theorem regmap_write_nil (s : ChipState) (addr val : Nat) (hf : s.faults = []) :
    regmap_write s addr val = (Except.ok (),
      { s with trace := s.trace ++ [Event.write addr val],
               regs := fun a => if a = addr then u16 val else s.regs a }) := by
  simp [regmap_write, takeFault, hf]

/-- Reduction of `regmap_write` when the scheduled access succeeds. -/
theorem regmap_write_cons_ok (s : ChipState) (addr val : Nat) (rest : List Bool)
    (hf : s.faults = false :: rest) :
    regmap_write s addr val = (Except.ok (),
      { s with faults := rest, trace := s.trace ++ [Event.write addr val],
               regs := fun a => if a = addr then u16 val else s.regs a }) := by
  simp [regmap_write, takeFault, hf]

/-- Reduction of `regmap_write` when the scheduled access faults: the attempt
is logged, the register file is untouched. -/
theorem regmap_write_cons_fault (s : ChipState) (addr val : Nat) (rest : List Bool)
    (hf : s.faults = true :: rest) :
    regmap_write s addr val = (Except.error EIO_ERR,
      { s with faults := rest, trace := s.trace ++ [Event.write addr val] }) := by
  simp [regmap_write, takeFault, hf]

/-- A write through `regmap_write` leaves every other register untouched,
whatever the fault schedule. -/
theorem regmap_write_regs_other (s : ChipState) (addr val a : Nat) (ha : a ≠ addr) :
    ((regmap_write s addr val).2).regs a = s.regs a := by
  rcases hf : s.faults with _ | ⟨f, rest⟩
  · rw [regmap_write_nil s addr val hf]; simp [ha]
  · rcases f
    · rw [regmap_write_cons_ok s addr val rest hf]; simp [ha]
    · rw [regmap_write_cons_fault s addr val rest hf]

/-- After `regmap_write`, the target register holds either the truncated new
value (success) or its old value (fault). -/
theorem regmap_write_regs_addr_cases (s : ChipState) (addr val : Nat) :
    ((regmap_write s addr val).2).regs addr = u16 val ∨
    ((regmap_write s addr val).2).regs addr = s.regs addr := by
  rcases hf : s.faults with _ | ⟨f, rest⟩
  · left; rw [regmap_write_nil s addr val hf]; simp
  · rcases f
    · left; rw [regmap_write_cons_ok s addr val rest hf]; simp
    · right; rw [regmap_write_cons_fault s addr val rest hf]

/-- An update through `regmap_update_bits` leaves every other register
untouched, whatever the fault schedule. -/
theorem update_bits_regs_other (s : ChipState) (addr mask val a : Nat)
    (ha : a ≠ addr) :
    ((regmap_update_bits s addr mask val).2).regs a = s.regs a := by
  unfold regmap_update_bits
  rcases hf : s.faults with _ | ⟨f, rest⟩
  · rw [regmap_read_nil s addr hf]
    simp only []
    split
    · rfl
    · rw [regmap_write_regs_other _ _ _ _ ha]
  · rw [regmap_read_cons s addr f rest hf]
    rcases f
    · simp only [if_neg Bool.false_ne_true]
      split
      · rfl
      · rw [regmap_write_regs_other _ _ _ _ ha]
    · rfl

/-- An update through `regmap_update_bits` preserves every bit below 16 that
is outside the mask, whatever the fault schedule. -/
theorem update_bits_testBit_other (s : ChipState) (addr mask val j : Nat)
    (hj : j < 16) (hm : mask.testBit j = false) :
    (((regmap_update_bits s addr mask val).2).regs addr).testBit j
      = (s.regs addr).testBit j := by
  unfold regmap_update_bits
  rcases hf : s.faults with _ | ⟨f, rest⟩
  · rw [regmap_read_nil s addr hf]
    simp only []
    split
    · rfl
    · rcases regmap_write_regs_addr_cases
        { s with trace := s.trace ++ [Event.read addr] } addr
        ((s.regs addr &&& (65535 ^^^ (mask &&& 65535))) ||| (val &&& mask)) with h | h
      · rw [h, u16_testBit _ _ hj, merge_testBit _ _ _ _ hj hm]
      · rw [h]
  · rw [regmap_read_cons s addr f rest hf]
    rcases f
    · simp only [if_neg Bool.false_ne_true]
      split
      · rfl
      · rcases regmap_write_regs_addr_cases
          { s with faults := rest, trace := s.trace ++ [Event.read addr] } addr
          ((s.regs addr &&& (65535 ^^^ (mask &&& 65535))) ||| (val &&& mask)) with h | h
        · rw [h, u16_testBit _ _ hj, merge_testBit _ _ _ _ hj hm]
        · rw [h]
    · rfl

/-- With an exhausted fault schedule, `regmap_update_bits` succeeds and leaves
the schedule exhausted. -/
theorem update_bits_nil_ok (s : ChipState) (addr mask val : Nat)
    (hf : s.faults = []) :
    (regmap_update_bits s addr mask val).1 = Except.ok () ∧
    (regmap_update_bits s addr mask val).2.faults = [] := by
  unfold regmap_update_bits
  rw [regmap_read_nil s addr hf]
  simp only []
  split
  · exact ⟨rfl, by simp [hf]⟩
  · rw [regmap_write_nil _ _ _ (by simp [hf])]
    exact ⟨rfl, by simp [hf]⟩

/-- With an exhausted fault schedule, setting the low bit through
`regmap_set_bits` succeeds, keeps the schedule exhausted, and the register
afterwards has bit 0 set. -/
theorem set_bits_one_nil (s : ChipState) (addr : Nat) (hf : s.faults = []) :
    (regmap_set_bits s addr 1).1 = Except.ok () ∧
    (regmap_set_bits s addr 1).2.faults = [] ∧
    ((regmap_set_bits s addr 1).2.regs addr) &&& 1 = 1 := by
  unfold regmap_set_bits regmap_update_bits
  rw [regmap_read_nil s addr hf]
  simp only []
  split
  · rename_i h
    refine ⟨rfl, by simp [hf], ?_⟩
    have hr : ({ s with trace := s.trace ++ [Event.read addr] } : ChipState).regs addr
        = s.regs addr := rfl
    rw [hr, ← h]
    simp [or_one_and_one]
  · rw [regmap_write_nil _ _ _ (by simp [hf])]
    refine ⟨rfl, by simp [hf], ?_⟩
    have hu : ∀ y : Nat, (u16 (y ||| 1)) &&& 1 = 1 := fun y => by
      rw [u16_and_one, or_one_and_one]
    simp [hu]

/-- With an exhausted fault schedule, `regmap_test_bits` reports on the stored
register value. -/
theorem test_bits_nil (s : ChipState) (addr bits : Nat) (hf : s.faults = []) :
    (regmap_test_bits s addr bits).1
      = Except.ok (if s.regs addr &&& bits = bits then 1 else 0) := by
  unfold regmap_test_bits
  rw [regmap_read_nil s addr hf]

/-- Recomposition of a base-2^k digit split by shift and or. -/
theorem div_shiftLeft_or_mod (a k : Nat) :
    ((a / 2 ^ k) <<< k) ||| a % 2 ^ k = a := by
  apply Nat.eq_of_testBit_eq
  intro i
  rw [← Nat.shiftRight_eq_div_pow]
  by_cases h : i < k
  · have hk : ¬ i ≥ k := by omega
    simp [Nat.testBit_shiftLeft, Nat.testBit_mod_two_pow, h, hk]
  · have hk : i ≥ k := by omega
    simp [Nat.testBit_shiftLeft, Nat.testBit_mod_two_pow, h, hk,
          Nat.testBit_shiftRight]

/-! ### Claim theorems -/

/-- C6: for every logical register address A up to the configured maximum
0xA1F2, the transport decomposition page = A >> 8, offset = A & 0xFF (which is
exactly the range windowing `(A - window_start) / window_len` and
`window_start + (A - window_start) % window_len` of `ac200_range_cfg`)
satisfies offset < 256, recomposition `(page << 8) | offset` restores A, the
page-select byte goes to the fixed interface register 0xFE, and the in-page
window holds 256 slots. -/
theorem paged_transport_decompose_recompose (a : Nat)
    (ha : a ≤ ac200_range_cfg.range_max) :
    offsetOf ac200_range_cfg a < ac200_range_cfg.window_len ∧
    ((pageOf ac200_range_cfg a) <<< 8) ||| offsetOf ac200_range_cfg a = a ∧
    pageOf ac200_range_cfg a = a >>> 8 ∧
    offsetOf ac200_range_cfg a = a &&& 0xFF ∧
    ac200_range_cfg.selector_reg = 0xFE ∧
    ac200_range_cfg.window_len = 256 := by
  have hpage : pageOf ac200_range_cfg a = a / 2 ^ 8 := by
    simp [pageOf, ac200_range_cfg]
  have hoff : offsetOf ac200_range_cfg a = a % 2 ^ 8 := by
    simp [offsetOf, ac200_range_cfg]
  refine ⟨?_, ?_, ?_, ?_, rfl, rfl⟩
  · rw [hoff]
    show a % 2 ^ 8 < ac200_range_cfg.window_len
    have : a % 2 ^ 8 < 2 ^ 8 := Nat.mod_lt _ (by norm_num)
    simpa [ac200_range_cfg] using this
  · rw [hpage, hoff]
    exact div_shiftLeft_or_mod a 8
  · rw [hpage, Nat.shiftRight_eq_div_pow]
  · rw [hoff, show (0xFF : Nat) = 2 ^ 8 - 1 by norm_num,
        Nat.and_pow_two_sub_one_eq_mod]

/-- Witness for C6 at the concrete address 0x1234. -/
theorem paged_transport_decompose_recompose_witness :
    0x1234 ≤ ac200_range_cfg.range_max ∧
    (offsetOf ac200_range_cfg 0x1234 < ac200_range_cfg.window_len ∧
     ((pageOf ac200_range_cfg 0x1234) <<< 8) ||| offsetOf ac200_range_cfg 0x1234
       = 0x1234 ∧
     pageOf ac200_range_cfg 0x1234 = 0x1234 >>> 8 ∧
     offsetOf ac200_range_cfg 0x1234 = 0x1234 &&& 0xFF ∧
     ac200_range_cfg.selector_reg = 0xFE ∧
     ac200_range_cfg.window_len = 256) :=
  ⟨by decide, paged_transport_decompose_recompose 0x1234 (by decide)⟩

/-- C1: for the configuration {RMII, LED active-low, PHY address 0x05,
calibration trim 0x0A, 24 MHz reference clock}, the computed 16-bit ephy
control value is 0xD856 — the or of the calibration field ((0x0A+3)&0xF)<<12,
the RMII-select bit, the LED-polarity bit, the address field (0x05&0x1F)<<4
and the clock-select bit — and the attach writes exactly that value to the
ephy control register 0x6000. -/
theorem ephy_ctl_value_rmii_activelow (env : ProbeEnv) (s : ChipState)
    (h1 : env.regmapPresent = true) (h2 : env.calCell = Except.ok ())
    (h3 : env.calRead = Except.ok (0x0A, 2))
    (h4 : env.phyMode = Except.ok PhyMode.rmii)
    (h5 : env.ledPolarity = Except.ok GPIO_ACTIVE_LOW)
    (h6 : env.phyAddress = Except.ok 5)
    (h7 : env.clkGet = Except.ok ()) (h8 : env.clkRate = 24000000)
    (h9 : env.resetRegister = Except.ok ())
    (h10 : env.gateClkRegister = Except.ok ())
    (h11 : env.clkProviderAdd = Except.ok ()) (hf : s.faults = []) :
    ac200_ephy_ctl_compute env = Except.ok 0xD856 ∧
    (0xD856 : Nat) = AC200_EPHY_CALIB (0x0A + 3) ||| AC200_EPHY_XMII_SEL |||
      AC200_EPHY_LED_POL ||| AC200_EPHY_ADDR 0x05 ||| AC200_EPHY_CLK_SEL ∧
    (ac200_ephy_ctl_probe env s).1 = Except.ok () ∧
    (ac200_ephy_ctl_probe env s).2.trace = s.trace ++
      [Event.write AC200_SYS_EPHY_CTL0 0,
       Event.write AC200_SYS_EPHY_CTL1
         (AC200_EPHY_E_EPHY_MII_IO_EN ||| AC200_EPHY_E_LNK_LED_IO_EN |||
          AC200_EPHY_E_SPD_LED_IO_EN ||| AC200_EPHY_E_DPX_LED_IO_EN),
       Event.write AC200_EPHY_CTL 0xD856] ∧
    (ac200_ephy_ctl_probe env s).2.regs AC200_EPHY_CTL = 0xD856 := by
  have hc : ac200_ephy_ctl_compute env = Except.ok 0xD856 := by
    simp [ac200_ephy_ctl_compute, h1, h2, h3, h4, h5, h6, h7, h8,
          AC200_EPHY_CALIB, AC200_EPHY_XMII_SEL, AC200_EPHY_LED_POL,
          AC200_EPHY_ADDR, AC200_EPHY_CLK_SEL, GPIO_ACTIVE_LOW]
    decide
  refine ⟨hc, by decide, ?_, ?_, ?_⟩ <;>
    simp [ac200_ephy_ctl_probe, hc, h9, h10, h11, hf,
          regmap_write_nil, u16, AC200_SYS_EPHY_CTL0, AC200_SYS_EPHY_CTL1,
          AC200_EPHY_CTL]

/-- Witness for C1: the reference environment `envRmii` over `initState`. -/
theorem ephy_ctl_value_rmii_activelow_witness :
    ac200_ephy_ctl_compute envRmii = Except.ok 0xD856 ∧
    (0xD856 : Nat) = AC200_EPHY_CALIB (0x0A + 3) ||| AC200_EPHY_XMII_SEL |||
      AC200_EPHY_LED_POL ||| AC200_EPHY_ADDR 0x05 ||| AC200_EPHY_CLK_SEL ∧
    (ac200_ephy_ctl_probe envRmii initState).1 = Except.ok () ∧
    (ac200_ephy_ctl_probe envRmii initState).2.trace = initState.trace ++
      [Event.write AC200_SYS_EPHY_CTL0 0,
       Event.write AC200_SYS_EPHY_CTL1
         (AC200_EPHY_E_EPHY_MII_IO_EN ||| AC200_EPHY_E_LNK_LED_IO_EN |||
          AC200_EPHY_E_SPD_LED_IO_EN ||| AC200_EPHY_E_DPX_LED_IO_EN),
       Event.write AC200_EPHY_CTL 0xD856] ∧
    (ac200_ephy_ctl_probe envRmii initState).2.regs AC200_EPHY_CTL = 0xD856 :=
  ephy_ctl_value_rmii_activelow envRmii initState rfl rfl rfl rfl rfl rfl rfl
    rfl rfl rfl rfl rfl

/-- C7: a PHY interface mode which is neither MII nor RMII makes the attach
fail with the configuration error EINVAL while the state — in particular the
write-call count to each of the EPHY registers 0x0014, 0x0016 and 0x6000 —
is left untouched. -/
theorem ephy_probe_invalid_mode_no_writes (env : ProbeEnv) (s : ChipState)
    (n : Nat) (h1 : env.regmapPresent = true) (h2 : env.calCell = Except.ok ())
    (h3 : ∃ v, env.calRead = Except.ok (v, 2))
    (h4 : env.phyMode = Except.ok (PhyMode.other n)) :
    ac200_ephy_ctl_probe env s = (Except.error EINVAL, s) ∧
    writeCount (ac200_ephy_ctl_probe env s).2.trace AC200_SYS_EPHY_CTL0
      = writeCount s.trace AC200_SYS_EPHY_CTL0 ∧
    writeCount (ac200_ephy_ctl_probe env s).2.trace AC200_SYS_EPHY_CTL1
      = writeCount s.trace AC200_SYS_EPHY_CTL1 ∧
    writeCount (ac200_ephy_ctl_probe env s).2.trace AC200_EPHY_CTL
      = writeCount s.trace AC200_EPHY_CTL := by
  obtain ⟨v, hv⟩ := h3
  have hc : ac200_ephy_ctl_compute env = Except.error EINVAL := by
    simp [ac200_ephy_ctl_compute, h1, h2, hv, h4]
  have hp : ac200_ephy_ctl_probe env s = (Except.error EINVAL, s) := by
    simp [ac200_ephy_ctl_probe, hc]
  exact ⟨hp, by rw [hp], by rw [hp], by rw [hp]⟩

/-- Witness for C7: the reference configuration with an unsupported mode. -/
theorem ephy_probe_invalid_mode_no_writes_witness :
    ac200_ephy_ctl_probe { envRmii with phyMode := Except.ok (PhyMode.other 7) }
        initState = (Except.error EINVAL, initState) ∧
    writeCount (ac200_ephy_ctl_probe
        { envRmii with phyMode := Except.ok (PhyMode.other 7) } initState).2.trace
        AC200_SYS_EPHY_CTL0 = writeCount initState.trace AC200_SYS_EPHY_CTL0 ∧
    writeCount (ac200_ephy_ctl_probe
        { envRmii with phyMode := Except.ok (PhyMode.other 7) } initState).2.trace
        AC200_SYS_EPHY_CTL1 = writeCount initState.trace AC200_SYS_EPHY_CTL1 ∧
    writeCount (ac200_ephy_ctl_probe
        { envRmii with phyMode := Except.ok (PhyMode.other 7) } initState).2.trace
        AC200_EPHY_CTL = writeCount initState.trace AC200_EPHY_CTL :=
  ephy_probe_invalid_mode_no_writes _ initState 7 rfl rfl ⟨0x0A, rfl⟩ rfl

/-- C8: when every underlying access succeeds, the reset pulse succeeds and an
immediately following status read reports VALID (the reset-valid bit is set). -/
theorem ephy_reset_pulse_status_valid (s : ChipState) (hf : s.faults = []) :
    (ephy_ctl_reset s).1 = Except.ok () ∧
    (ephy_ctl_status (ephy_ctl_reset s).2).1 = Except.ok 1 := by
  simp only [ephy_ctl_reset, ephy_ctl_status, regmap_clear_bits,
             AC200_EPHY_RESET_INVALID]
  rcases hc : regmap_update_bits s AC200_SYS_EPHY_CTL0 1 0 with ⟨res, s1⟩
  obtain ⟨hok, hfa⟩ := update_bits_nil_ok s AC200_SYS_EPHY_CTL0 1 0 hf
  rw [hc] at hok hfa
  simp at hok hfa
  subst hok
  obtain ⟨hok2, hfa2, hbit⟩ := set_bits_one_nil s1 AC200_SYS_EPHY_CTL0 hfa
  refine ⟨hok2, ?_⟩
  show (regmap_test_bits (regmap_set_bits s1 AC200_SYS_EPHY_CTL0 1).2
    AC200_SYS_EPHY_CTL0 1).1 = Except.ok 1
  rw [test_bits_nil _ _ _ hfa2, hbit]
  simp

/-- Witness for C8 at the all-zero fault-free state. -/
theorem ephy_reset_pulse_status_valid_witness :
    (ephy_ctl_reset initState).1 = Except.ok () ∧
    (ephy_ctl_status (ephy_ctl_reset initState).2).1 = Except.ok 1 :=
  ephy_reset_pulse_status_valid initState rfl

/-- C9: chip removal writes 0 to the system control register and only then
disables the reference clock — in every state, whatever the fault schedule,
the trace extends by the register write followed by the clock disable, in
that order. -/
theorem mfd_remove_write_before_clk_disable (s : ChipState) :
    (ac200_i2c_remove s).trace
      = s.trace ++ [Event.write AC200_SYS_CONTROL 0, Event.clkDisable] ∧
    (ac200_i2c_remove s).clkOn = false := by
  unfold ac200_i2c_remove clk_disable_unprepare
  rcases hf : s.faults with _ | ⟨f, rest⟩
  · rw [regmap_write_nil s _ _ hf]
    simp
  · rcases f
    · rw [regmap_write_cons_ok s _ _ rest hf]
      simp
    · rw [regmap_write_cons_fault s _ _ rest hf]
      simp

/-- C10 counterexample: starting from a state whose reset-valid bit is SET
(line deasserted), a bus fault in the pulse's first step returns the error —
but the reset-valid bit is still set afterwards (a fault-free status read
reports VALID), so the line is NOT left asserted as the claim states. -/
theorem ephy_reset_pulse_fail_not_asserted :
    (ephy_ctl_reset stDeassertedFault).1 = Except.error EIO_ERR ∧
    ((ephy_ctl_reset stDeassertedFault).2.regs AC200_SYS_EPHY_CTL0).testBit 0
      = true ∧
    (ephy_ctl_status
      { (ephy_ctl_reset stDeassertedFault).2 with faults := [] }).1
      = Except.ok 1 :=
  ⟨rfl, rfl, rfl⟩

/-- A failed `regmap_write` leaves the register file unchanged. -/
theorem regmap_write_regs_of_error (s : ChipState) (addr val e : Nat)
    (h : (regmap_write s addr val).1 = Except.error e) :
    (regmap_write s addr val).2.regs = s.regs := by
  rcases hf : s.faults with _ | ⟨f, rest⟩
  · rw [regmap_write_nil s addr val hf] at h
    simp at h
  · rcases f
    · rw [regmap_write_cons_ok s addr val rest hf] at h
      simp at h
    · rw [regmap_write_cons_fault s addr val rest hf]

/-- Every `regmap_write` either leaves the register file unchanged (a fault)
or reports success. -/
theorem regmap_write_regs_or_ok (s : ChipState) (addr val : Nat) :
    (regmap_write s addr val).2.regs = s.regs ∨
    (regmap_write s addr val).1 = Except.ok () := by
  rcases hf : s.faults with _ | ⟨f, rest⟩
  · right
    rw [regmap_write_nil s addr val hf]
  · rcases f
    · right
      rw [regmap_write_cons_ok s addr val rest hf]
    · left
      rw [regmap_write_cons_fault s addr val rest hf]

/-- Every `regmap_update_bits` either leaves the register file unchanged (a
fault on its read or write-back, or a skipped unchanged write) or reports
success. -/
theorem update_bits_regs_or_ok (s : ChipState) (addr mask val : Nat) :
    (regmap_update_bits s addr mask val).2.regs = s.regs ∨
    (regmap_update_bits s addr mask val).1 = Except.ok () := by
  unfold regmap_update_bits
  rcases hf : s.faults with _ | ⟨f, rest⟩
  · rw [regmap_read_nil s addr hf]
    simp only []
    split
    · right; rfl
    · rcases regmap_write_regs_or_ok
        { s with trace := s.trace ++ [Event.read addr] } addr
        ((s.regs addr &&& (65535 ^^^ (mask &&& 65535))) ||| (val &&& mask))
        with hw | hw
      · left; exact hw
      · right; exact hw
  · rcases f
    · rw [regmap_read_cons s addr false rest hf]
      simp only [if_neg Bool.false_ne_true]
      split
      · right; rfl
      · rcases regmap_write_regs_or_ok
          { s with faults := rest, trace := s.trace ++ [Event.read addr] } addr
          ((s.regs addr &&& (65535 ^^^ (mask &&& 65535))) ||| (val &&& mask))
          with hw | hw
        · left; exact hw
        · right; exact hw
    · left
      rw [regmap_read_cons s addr true rest hf]
      rfl

/-- A failed `regmap_update_bits` — whether the fault hit its read or its
write-back — leaves the register file unchanged. -/
theorem update_bits_regs_of_error (s : ChipState) (addr mask val e : Nat)
    (h : (regmap_update_bits s addr mask val).1 = Except.error e) :
    (regmap_update_bits s addr mask val).2.regs = s.regs := by
  rcases update_bits_regs_or_ok s addr mask val with hr | hok
  · exact hr
  · rw [h] at hok
    exact absurd hok (by simp)

/-- C10 (amended): whenever the pulse's first step (clearing the reset-valid
bit) fails with a bus error — whether the fault hits the clear's read access
or its write-back — the pulse returns that same error and stops there: its
result is exactly the failed clear's result, so the second (set) step is
never attempted, and the register file is unchanged, leaving the line in
whatever state it had before the pulse. -/
theorem ephy_reset_pulse_first_clear_fail (s : ChipState) (e : Nat)
    (hfail : (regmap_clear_bits s AC200_SYS_EPHY_CTL0
        AC200_EPHY_RESET_INVALID).1 = Except.error e) :
    ephy_ctl_reset s = (Except.error e,
      (regmap_clear_bits s AC200_SYS_EPHY_CTL0 AC200_EPHY_RESET_INVALID).2) ∧
    (ephy_ctl_reset s).2.regs = s.regs := by
  have hregs := update_bits_regs_of_error s AC200_SYS_EPHY_CTL0
    AC200_EPHY_RESET_INVALID 0 e hfail
  unfold ephy_ctl_reset
  rcases hc : regmap_clear_bits s AC200_SYS_EPHY_CTL0 AC200_EPHY_RESET_INVALID
    with ⟨res, s1⟩
  rw [hc] at hfail
  simp at hfail
  subst hfail
  have hregs1 : s1.regs = s.regs := by
    rw [show regmap_update_bits s AC200_SYS_EPHY_CTL0 AC200_EPHY_RESET_INVALID 0
          = (Except.error e, s1) from hc] at hregs
    exact hregs
  exact ⟨rfl, hregs1⟩

/-- Witness for the amended C10: a deasserted state (reset-valid bit set)
whose fault schedule lets the clear's read succeed and faults its write-back
— the first step fails with the register file unchanged. -/
theorem ephy_reset_pulse_first_clear_fail_witness :
    (ephy_ctl_reset { stDeassertedFault with faults := [false, true] }
        = (Except.error EIO_ERR,
           (regmap_clear_bits { stDeassertedFault with faults := [false, true] }
              AC200_SYS_EPHY_CTL0 AC200_EPHY_RESET_INVALID).2) ∧
     (ephy_ctl_reset { stDeassertedFault with faults := [false, true] }).2.regs
        = ({ stDeassertedFault with faults := [false, true] } : ChipState).regs) :=
  ephy_reset_pulse_first_clear_fail
    { stDeassertedFault with faults := [false, true] } EIO_ERR rfl

/-- The reset pulse, like its two constituent bit operations, leaves every
register other than system ephy control 0 untouched. -/
theorem pulse_regs_other (s : ChipState) (a : Nat)
    (ha : a ≠ AC200_SYS_EPHY_CTL0) :
    (ephy_ctl_reset s).2.regs a = s.regs a := by
  simp only [ephy_ctl_reset, regmap_clear_bits, regmap_set_bits]
  rcases hc : regmap_update_bits s AC200_SYS_EPHY_CTL0 AC200_EPHY_RESET_INVALID 0
    with ⟨res, s1⟩
  have h1 : s1.regs a = s.regs a := by
    have h := update_bits_regs_other s AC200_SYS_EPHY_CTL0
      AC200_EPHY_RESET_INVALID 0 a ha
    rw [hc] at h
    exact h
  rcases res with e | u
  · exact h1
  · exact (update_bits_regs_other s1 AC200_SYS_EPHY_CTL0
      AC200_EPHY_RESET_INVALID AC200_EPHY_RESET_INVALID a ha).trans h1

/-- The reset pulse preserves every bit of system ephy control 0 below 16
other than bit 0. -/
theorem pulse_testBit_other (s : ChipState) (j : Nat) (hj16 : j < 16)
    (hm : AC200_EPHY_RESET_INVALID.testBit j = false) :
    ((ephy_ctl_reset s).2.regs AC200_SYS_EPHY_CTL0).testBit j
      = (s.regs AC200_SYS_EPHY_CTL0).testBit j := by
  simp only [ephy_ctl_reset, regmap_clear_bits, regmap_set_bits]
  rcases hc : regmap_update_bits s AC200_SYS_EPHY_CTL0 AC200_EPHY_RESET_INVALID 0
    with ⟨res, s1⟩
  have h1 : (s1.regs AC200_SYS_EPHY_CTL0).testBit j
      = (s.regs AC200_SYS_EPHY_CTL0).testBit j := by
    have h := update_bits_testBit_other s AC200_SYS_EPHY_CTL0
      AC200_EPHY_RESET_INVALID 0 j hj16 hm
    rw [hc] at h
    exact h
  rcases res with e | u
  · exact h1
  · exact (update_bits_testBit_other s1 AC200_SYS_EPHY_CTL0
      AC200_EPHY_RESET_INVALID AC200_EPHY_RESET_INVALID j hj16 hm).trans h1

/-- C5: the reset-line operations assert, deassert and pulse change at most
the reset-valid bit (bit 0) of system ephy control 0 — every other bit of
that 16-bit register, in particular the clock-gate bit, keeps its value, and
every other register is untouched — and conversely the gated-clock enable and
disable change at most the clock-gate bit (bit 1), leaving the reset-valid
bit and every other register untouched; this holds for every state and every
fault schedule. -/
theorem reset_and_gate_ops_frame (s : ChipState) (j k a : Nat)
    (hj16 : j < 16) (hj : j ≠ 0) (hk16 : k < 16) (hk : k ≠ 1)
    (ha : a ≠ AC200_SYS_EPHY_CTL0) :
    (((ephy_ctl_assert s).2.regs AC200_SYS_EPHY_CTL0).testBit j
        = (s.regs AC200_SYS_EPHY_CTL0).testBit j ∧
     ((ephy_ctl_deassert s).2.regs AC200_SYS_EPHY_CTL0).testBit j
        = (s.regs AC200_SYS_EPHY_CTL0).testBit j ∧
     ((ephy_ctl_reset s).2.regs AC200_SYS_EPHY_CTL0).testBit j
        = (s.regs AC200_SYS_EPHY_CTL0).testBit j) ∧
    (((gate_clk_enable s).2.regs AC200_SYS_EPHY_CTL0).testBit k
        = (s.regs AC200_SYS_EPHY_CTL0).testBit k ∧
     ((gate_clk_disable s).2.regs AC200_SYS_EPHY_CTL0).testBit k
        = (s.regs AC200_SYS_EPHY_CTL0).testBit k) ∧
    ((ephy_ctl_assert s).2.regs a = s.regs a ∧
     (ephy_ctl_deassert s).2.regs a = s.regs a ∧
     (ephy_ctl_reset s).2.regs a = s.regs a ∧
     (gate_clk_enable s).2.regs a = s.regs a ∧
     (gate_clk_disable s).2.regs a = s.regs a) := by
  have hm1 : AC200_EPHY_RESET_INVALID.testBit j = false := by
    show Nat.testBit 1 j = false
    rw [show (1 : Nat) = 2 ^ 0 from rfl, Nat.testBit_two_pow]
    simp only [decide_eq_false_iff_not]
    omega
  have hm2 : (1 <<< AC200_EPHY_SYSCLK_GATING).testBit k = false := by
    show Nat.testBit 2 k = false
    rw [show (2 : Nat) = 2 ^ 1 from rfl, Nat.testBit_two_pow]
    simp only [decide_eq_false_iff_not]
    omega
  refine ⟨⟨?_, ?_, ?_⟩, ⟨?_, ?_⟩, ?_, ?_, ?_, ?_, ?_⟩
  · exact update_bits_testBit_other s AC200_SYS_EPHY_CTL0
      AC200_EPHY_RESET_INVALID 0 j hj16 hm1
  · exact update_bits_testBit_other s AC200_SYS_EPHY_CTL0
      AC200_EPHY_RESET_INVALID AC200_EPHY_RESET_INVALID j hj16 hm1
  · exact pulse_testBit_other s j hj16 hm1
  · exact update_bits_testBit_other s AC200_SYS_EPHY_CTL0
      (1 <<< AC200_EPHY_SYSCLK_GATING) (1 <<< AC200_EPHY_SYSCLK_GATING) k hk16 hm2
  · exact update_bits_testBit_other s AC200_SYS_EPHY_CTL0
      (1 <<< AC200_EPHY_SYSCLK_GATING) 0 k hk16 hm2
  · exact update_bits_regs_other s AC200_SYS_EPHY_CTL0
      AC200_EPHY_RESET_INVALID 0 a ha
  · exact update_bits_regs_other s AC200_SYS_EPHY_CTL0
      AC200_EPHY_RESET_INVALID AC200_EPHY_RESET_INVALID a ha
  · exact pulse_regs_other s a ha
  · exact update_bits_regs_other s AC200_SYS_EPHY_CTL0
      (1 <<< AC200_EPHY_SYSCLK_GATING) (1 <<< AC200_EPHY_SYSCLK_GATING) a ha
  · exact update_bits_regs_other s AC200_SYS_EPHY_CTL0
      (1 <<< AC200_EPHY_SYSCLK_GATING) 0 a ha

/-- Witness for C5: the gate bit (bit 1) across reset operations and the
reset-valid bit (bit 0) across gate operations, at a concrete state. -/
theorem reset_and_gate_ops_frame_witness :
    (((ephy_ctl_assert stDeassertedFault).2.regs AC200_SYS_EPHY_CTL0).testBit 1
        = (stDeassertedFault.regs AC200_SYS_EPHY_CTL0).testBit 1 ∧
     ((ephy_ctl_deassert stDeassertedFault).2.regs AC200_SYS_EPHY_CTL0).testBit 1
        = (stDeassertedFault.regs AC200_SYS_EPHY_CTL0).testBit 1 ∧
     ((ephy_ctl_reset stDeassertedFault).2.regs AC200_SYS_EPHY_CTL0).testBit 1
        = (stDeassertedFault.regs AC200_SYS_EPHY_CTL0).testBit 1) ∧
    (((gate_clk_enable stDeassertedFault).2.regs AC200_SYS_EPHY_CTL0).testBit 0
        = (stDeassertedFault.regs AC200_SYS_EPHY_CTL0).testBit 0 ∧
     ((gate_clk_disable stDeassertedFault).2.regs AC200_SYS_EPHY_CTL0).testBit 0
        = (stDeassertedFault.regs AC200_SYS_EPHY_CTL0).testBit 0) ∧
    ((ephy_ctl_assert stDeassertedFault).2.regs AC200_EPHY_CTL
        = stDeassertedFault.regs AC200_EPHY_CTL ∧
     (ephy_ctl_deassert stDeassertedFault).2.regs AC200_EPHY_CTL
        = stDeassertedFault.regs AC200_EPHY_CTL ∧
     (ephy_ctl_reset stDeassertedFault).2.regs AC200_EPHY_CTL
        = stDeassertedFault.regs AC200_EPHY_CTL ∧
     (gate_clk_enable stDeassertedFault).2.regs AC200_EPHY_CTL
        = stDeassertedFault.regs AC200_EPHY_CTL ∧
     (gate_clk_disable stDeassertedFault).2.regs AC200_EPHY_CTL
        = stDeassertedFault.regs AC200_EPHY_CTL) :=
  reset_and_gate_ops_frame stDeassertedFault 1 0 AC200_EPHY_CTL
    (by decide) (by decide) (by decide) (by decide) (by decide)

/-- C2 counterexample: with the reference configuration and a bus fault on
the third register write — the write of the computed ephy control value to
0x6000, which happens after the IO-enable register 0x0016 was written — the
attach returns the bus error directly: the trace ends at the failed write
and contains none of the three shutdown-sequence writes. -/
theorem ephy_probe_ctl_write_fail_no_shutdown :
    (ac200_ephy_ctl_probe envRmii
      { initState with faults := [false, false, true] }).1
      = Except.error EIO_ERR ∧
    (ac200_ephy_ctl_probe envRmii
      { initState with faults := [false, false, true] }).2.trace =
      [Event.write AC200_SYS_EPHY_CTL0 0,
       Event.write AC200_SYS_EPHY_CTL1 15,
       Event.write AC200_EPHY_CTL 0xD856] ∧
    Event.write AC200_EPHY_CTL AC200_EPHY_SHUTDOWN ∉
      (ac200_ephy_ctl_probe envRmii
        { initState with faults := [false, false, true] }).2.trace :=
  ⟨rfl, rfl, by decide⟩

/-- C2 (amended): failures of the reset-controller registration, the gated
clock registration or the clock-provider registration — all after the
IO-enable write — run the explicit shutdown sequence (shutdown bit to 0x6000,
then 0 to 0x0016, then 0 to 0x0014) before the error returns; a failed write
of the computed ephy control value to 0x6000 instead returns its error
directly, without the shutdown sequence. -/
theorem ephy_probe_registration_failure_shutdown (env : ProbeEnv)
    (s : ChipState) (v e : Nat)
    (hc : ac200_ephy_ctl_compute env = Except.ok v) (hf : s.faults = [])
    (hreg : env.resetRegister = Except.error e ∨
      (env.resetRegister = Except.ok () ∧
       env.gateClkRegister = Except.error e) ∨
      (env.resetRegister = Except.ok () ∧ env.gateClkRegister = Except.ok () ∧
       env.clkProviderAdd = Except.error e)) :
    (ac200_ephy_ctl_probe env s).1 = Except.error e ∧
    (ac200_ephy_ctl_probe env s).2.trace = s.trace ++
      [Event.write AC200_SYS_EPHY_CTL0 0,
       Event.write AC200_SYS_EPHY_CTL1
         (AC200_EPHY_E_EPHY_MII_IO_EN ||| AC200_EPHY_E_LNK_LED_IO_EN |||
          AC200_EPHY_E_SPD_LED_IO_EN ||| AC200_EPHY_E_DPX_LED_IO_EN),
       Event.write AC200_EPHY_CTL v,
       Event.write AC200_EPHY_CTL AC200_EPHY_SHUTDOWN,
       Event.write AC200_SYS_EPHY_CTL1 0,
       Event.write AC200_SYS_EPHY_CTL0 0] := by
  obtain ⟨r, fl, c, t⟩ := s
  subst hf
  rcases hreg with h | ⟨h1, h2⟩ | ⟨h1, h2, h3⟩
  · refine ⟨?_, ?_⟩ <;>
      simp [ac200_ephy_ctl_probe, ac200_ephy_ctl_disable, hc, h,
            regmap_write, takeFault]
  · refine ⟨?_, ?_⟩ <;>
      simp [ac200_ephy_ctl_probe, ac200_ephy_ctl_disable, hc, h1, h2,
            regmap_write, takeFault]
  · refine ⟨?_, ?_⟩ <;>
      simp [ac200_ephy_ctl_probe, ac200_ephy_ctl_disable, hc, h1, h2, h3,
            regmap_write, takeFault]

/-- Witness for the amended C2: reset-controller registration failing with
error 12 in the reference configuration. -/
theorem ephy_probe_registration_failure_shutdown_witness :
    (ac200_ephy_ctl_probe { envRmii with resetRegister := Except.error 12 }
        initState).1 = Except.error 12 ∧
    (ac200_ephy_ctl_probe { envRmii with resetRegister := Except.error 12 }
        initState).2.trace = initState.trace ++
      [Event.write AC200_SYS_EPHY_CTL0 0,
       Event.write AC200_SYS_EPHY_CTL1
         (AC200_EPHY_E_EPHY_MII_IO_EN ||| AC200_EPHY_E_LNK_LED_IO_EN |||
          AC200_EPHY_E_SPD_LED_IO_EN ||| AC200_EPHY_E_DPX_LED_IO_EN),
       Event.write AC200_EPHY_CTL 0xD856,
       Event.write AC200_EPHY_CTL AC200_EPHY_SHUTDOWN,
       Event.write AC200_SYS_EPHY_CTL1 0,
       Event.write AC200_SYS_EPHY_CTL0 0] :=
  ephy_probe_registration_failure_shutdown
    { envRmii with resetRegister := Except.error 12 } initState 0xD856 12
    rfl rfl (Or.inl rfl)

/-- C3 counterexample: a loaded bandgap value of 0x0100 (non-zero high byte,
zero low byte) makes the bring-up write 0x8280 | 0x0100 = 0x8380 to the
bandgap register — not 0x8280 | (low byte) = 0x8280 as the claim states:
exactly one bandgap write occurs and its value is 0x8380, while the claimed
value is never written. -/
theorem bandgap_write_full_value :
    Event.write AC200_SYS_BG_CTL 0x8380
      ∈ (ac200_i2c_probe menvHighByte initState).2.trace ∧
    Event.write AC200_SYS_BG_CTL (0x8280 ||| (0x0100 &&& 0xFF))
      ∉ (ac200_i2c_probe menvHighByte initState).2.trace ∧
    writeCount (ac200_i2c_probe menvHighByte initState).2.trace
      AC200_SYS_BG_CTL = 1 :=
  ⟨by decide, by decide, rfl⟩

/-- C3 (amended): during bring-up the bandgap register 0x0050 is written if
and only if the loaded 16-bit bandgap value is non-zero (a zero value yields
no write to 0x0050 at all), and when written the value is 0x8280 OR'd with
the full 16-bit calibration value (which coincides with its low byte exactly
when the value fits in one byte). -/
theorem bandgap_write_iff_nonzero (env : MfdEnv) (s : ChipState) (bgraw : Nat)
    (h1 : env.clkGet = Except.ok ()) (h2 : env.regmapInit = Except.ok ())
    (h3 : env.bgCell = Except.ok ()) (h4 : env.bgRead = Except.ok (bgraw, 2))
    (h5 : env.clkEnable = Except.ok ()) (h6 : env.mfdAdd = Except.ok ())
    (hf : s.faults = []) :
    (ac200_i2c_probe env s).1 = Except.ok () ∧
    (ac200_i2c_probe env s).2.trace = s.trace ++
      [Event.clkEnable, Event.sleep 40, Event.write AC200_SYS_CONTROL 0,
       Event.write AC200_SYS_CONTROL 1] ++
      (if u16 bgraw ≠ 0
       then [Event.write AC200_SYS_BG_CTL (0x8280 ||| u16 bgraw)] else []) ++
      [Event.addChildren] := by
  obtain ⟨r, fl, c, t⟩ := s
  subst hf
  by_cases hz : u16 bgraw = 0
  · refine ⟨?_, ?_⟩ <;>
      simp [ac200_i2c_probe, h1, h2, h3, h4, h5, h6, hz,
            regmap_write, takeFault]
  · refine ⟨?_, ?_⟩ <;>
      simp [ac200_i2c_probe, h1, h2, h3, h4, h5, h6, hz,
            regmap_write, takeFault]

/-- Witness for the amended C3 at the concrete bandgap value 0x55. -/
theorem bandgap_write_iff_nonzero_witness :
    (ac200_i2c_probe { menvHighByte with bgRead := Except.ok (0x55, 2) }
        initState).1 = Except.ok () ∧
    (ac200_i2c_probe { menvHighByte with bgRead := Except.ok (0x55, 2) }
        initState).2.trace = initState.trace ++
      [Event.clkEnable, Event.sleep 40, Event.write AC200_SYS_CONTROL 0,
       Event.write AC200_SYS_CONTROL 1] ++
      (if u16 0x55 ≠ 0
       then [Event.write AC200_SYS_BG_CTL (0x8280 ||| u16 0x55)] else []) ++
      [Event.addChildren] :=
  bandgap_write_iff_nonzero { menvHighByte with bgRead := Except.ok (0x55, 2) }
    initState 0x55 rfl rfl rfl rfl rfl rfl rfl

/-- C4: when the RUN-step write of 1 to the system control register 0x0002
fails, the bring-up disables the reference clock, returns the bus error, and
registers no child device: the final trace is exactly clock-enable, settle,
the two system-control writes (the second one failed) and clock-disable, the
clock is off, and no child-registration event is present. -/
theorem mfd_probe_run_write_failure (env : MfdEnv) (s : ChipState)
    (bgraw : Nat) (rest : List Bool)
    (h1 : env.clkGet = Except.ok ()) (h2 : env.regmapInit = Except.ok ())
    (h3 : env.bgCell = Except.ok ()) (h4 : env.bgRead = Except.ok (bgraw, 2))
    (h5 : env.clkEnable = Except.ok ())
    (hf : s.faults = false :: true :: rest)
    (hnc : Event.addChildren ∉ s.trace) :
    (ac200_i2c_probe env s).1 = Except.error EIO_ERR ∧
    (ac200_i2c_probe env s).2.clkOn = false ∧
    (ac200_i2c_probe env s).2.trace = s.trace ++
      [Event.clkEnable, Event.sleep 40, Event.write AC200_SYS_CONTROL 0,
       Event.write AC200_SYS_CONTROL 1, Event.clkDisable] ∧
    Event.addChildren ∉ (ac200_i2c_probe env s).2.trace := by
  obtain ⟨r, fl, c, t⟩ := s
  subst hf
  refine ⟨?_, ?_, ?_, ?_⟩ <;>
    simp [ac200_i2c_probe, clk_disable_unprepare, h1, h2, h3, h4, h5,
          regmap_write, takeFault, hnc]

/-- Witness for C4: the RUN write faulting in a concrete environment. -/
theorem mfd_probe_run_write_failure_witness :
    (ac200_i2c_probe menvHighByte
        { initState with faults := [false, true] }).1 = Except.error EIO_ERR ∧
    (ac200_i2c_probe menvHighByte
        { initState with faults := [false, true] }).2.clkOn = false ∧
    (ac200_i2c_probe menvHighByte
        { initState with faults := [false, true] }).2.trace =
      ({ initState with faults := [false, true] } : ChipState).trace ++
      [Event.clkEnable, Event.sleep 40, Event.write AC200_SYS_CONTROL 0,
       Event.write AC200_SYS_CONTROL 1, Event.clkDisable] ∧
    Event.addChildren ∉ (ac200_i2c_probe menvHighByte
        { initState with faults := [false, true] }).2.trace :=
  mfd_probe_run_write_failure menvHighByte
    { initState with faults := [false, true] } 0x0100 []
    rfl rfl rfl rfl rfl rfl (by decide)
